import Mathlib

/-!
Shallow embedding of `src/server.py` (containerMiddleMan), a minimal
function-as-a-service gateway: the `/run` endpoint fetches a code artifact
from a Swift object store into a fresh temporary workspace directory,
executes it in an ephemeral Docker container, and removes the workspace in a
`finally` block; `/upload` and `/list-objects` are store passthroughs.

External effects (the Swift store, the Docker engine, `tempfile.mkdtemp`,
`uuid.uuid4`) are modelled as explicit behaviour inputs in an environment
record, and side effects on the host are recorded as an event trace, so each
handler becomes a pure function from its environment to a response paired
with the trace of effects it performed.
-/

namespace Server

/-- Configuration defaults (server.py lines 21-23): the Swift container
(namespace) name, the Docker image, and the fixed command run inside the
container. -/
def DEFAULT_CONTAINER_NAME : String := "faas-code"

/-- Default Docker image (server.py line 22). -/
def DEFAULT_DOCKER_IMAGE : String := "python:3.10-slim"

/-- Fixed in-container command (server.py line 23). -/
def DEFAULT_CONTAINER_COMMAND : List String := ["python", "/app/script.py"]

/-- A filesystem path, as a list of components (so `os.path.join` is list
append and directory containment is list-prefix). -/
abbrev Path := List String

/-- Host-visible effects performed by the handlers, in the order the code
performs them. -/
inductive Event
  /-- `tempfile.mkdtemp` created this workspace directory (line 149). -/
  | mkdtemp (dir : Path)
  /-- `swift_conn.get_object container object` was attempted (line 69). -/
  | swiftGet (container object : String)
  /-- The fetched artifact bytes were written at this path (lines 70-71). -/
  | fileWrite (path : Path)
  /-- `docker_client.containers.run` was invoked with this image, command and
  read-only mount source (lines 99-108). -/
  | dockerRun (image : String) (command : List String) (mountDir : Path)
  /-- `swift_conn.put_object` stored an object under this key (lines 238-243). -/
  | swiftPut (container object : String)
  /-- `shutil.rmtree` removed this directory (line 203). -/
  | rmtree (dir : Path)
deriving DecidableEq, Repr

/-- Outcome of one `swift_conn.get_object` call: success with the object
bytes, a `ClientException` with its HTTP status, or any other exception. -/
inductive SwiftFetchResult
  | ok (contents : String)
  | clientErr (httpStatus : Nat) (msg : String)
  | exn (msg : String)
deriving DecidableEq, Repr

/-- A Python exception escaping a helper, as `run_function` distinguishes
them: `ConnectionError` (handled at line 191) versus anything else
(line 194). -/
inductive PyExn
  | connectionError (msg : String)
  | other (msg : String)
deriving DecidableEq, Repr

/-- `download_code` (server.py lines 63-82): raises `ConnectionError` when
the Swift client is uninitialized; otherwise calls `get_object`, writes the
bytes on success and returns `true`, and returns `false` on
`ClientException` (404 or otherwise) and on any other exception. The event
list records the fetch attempt and any file write. -/
def download_code (swiftInit : Bool) (fetch : String → String → SwiftFetchResult)
    (container object : String) (download_path : Path) :
    Except PyExn (Bool × List Event) :=
  if !swiftInit then
    .error (.connectionError "Swift client is not initialized.")
  else
    match fetch container object with
    | .ok _ => .ok (true, [.swiftGet container object, .fileWrite download_path])
    | .clientErr _ _ => .ok (false, [.swiftGet container object])
    | .exn _ => .ok (false, [.swiftGet container object])

/-- Behaviour of one `docker_client.containers.run` call: the returned
output bytes on a zero exit, or which exception it raised. `containerError`
carries the optional captured `stdout`/`stderr` attributes (absent
attributes are `none`) and `str(e)`. -/
inductive DockerRunResult
  | ok (output : String)
  | containerError (stdout stderr : Option String) (msg : String)
  | imageNotFound
  | apiError (msg : String)
  | exn (msg : String)
deriving DecidableEq, Repr

/-- The `error` value `run_in_container` returns in its third component:
`none` stands for Python `None`, otherwise the exception that occurred. -/
inductive RunError
  | containerError (msg : String)
  | imageNotFound (image : String)
  | apiError (msg : String)
  | other (msg : String)
deriving DecidableEq, Repr

/-- `str(error)` as interpolated at server.py line 172. -/
def RunError.str : RunError → String
  | .containerError m => m
  | .imageNotFound i => i
  | .apiError m => m
  | .other m => m

/-- Python `x.decode("utf-8") if x else fallback`: both `None` and empty
bytes are falsy, so both select the fallback (server.py lines 117-118). -/
def optBytes : Option String → String → String
  | some s, fb => if s = "" then fb else s
  | none, fb => fb

/-- `run_in_container` (server.py lines 85-129): raises `ConnectionError`
when the Docker client is uninitialized; otherwise runs the container and
returns `(stdout, stderr, error)` exactly as each `except` arm does, plus
the trace of the attempted container run. -/
def run_in_container (dockerInit : Bool) (beh : DockerRunResult)
    (image : String) (command : List String) (code_dir : Path) :
    Except PyExn (String × String × Option RunError × List Event) :=
  if !dockerInit then
    .error (.connectionError "Docker client is not initialized.")
  else
    let ev : List Event := [.dockerRun image command code_dir]
    match beh with
    | .ok output => .ok (output, "", none, ev)
    | .containerError so se msg =>
        .ok (optBytes so "", optBytes se msg, some (.containerError msg), ev)
    | .imageNotFound =>
        .ok ("", "Docker image not found: " ++ image, some (.imageNotFound image), ev)
    | .apiError m =>
        .ok ("", "Docker API error: " ++ m, some (.apiError m), ev)
    | .exn m =>
        .ok ("", "Unexpected container run error: " ++ m, some (.other m), ev)

/-- The JSON body of each response, one constructor per `jsonify` call site,
with the interpolated holes as fields. -/
inductive RespBody
  /-- line 137: server not fully initialized (Swift or Docker client missing). -/
  | notFullyInitialized
  /-- line 158: failed to download code from swift://container/key. -/
  | downloadFailed (container key : String)
  /-- lines 170-175: execution failed, with str(error), stdout, stderr. -/
  | execFailed (error stdout stderr : String)
  /-- lines 181-186: execution successful, with stdout, stderr. -/
  | execOk (stdout stderr : String)
  /-- line 193: a ConnectionError message. -/
  | connError (msg : String)
  /-- line 197: an internal server error message. -/
  | internalError (msg : String)
  /-- lines 213 and 266: Swift client not initialized. -/
  | swiftNotInitialized
  /-- line 219: no file part in the request. -/
  | noFilePart
  /-- line 224: no selected file. -/
  | noSelectedFile
  /-- line 228: only .py files are allowed. -/
  | onlyPyAllowed
  /-- lines 250-255: upload succeeded, with the object key and container. -/
  | uploaded (object_key container : String)
  /-- line 262: upload failed. -/
  | uploadFailed (msg : String)
  /-- line 271: the listed object keys. -/
  | objectList (keys : List String)
  /-- line 274: listing failed. -/
  | listFailed (msg : String)
deriving DecidableEq, Repr

/-- An HTTP response: structured body plus status code. -/
structure Response where
  body : RespBody
  status : Nat
deriving DecidableEq, Repr

/-- Python `str` applied to `request.args.get("KEY")` (line 145): a missing
query parameter is `None`, which stringifies to the literal `"None"`. -/
def pyStrOfOption : Option String → String
  | none => "None"
  | some s => s

/-- Environment of one `/run` invocation: whether the global Swift and
Docker handles are initialized, the store's behaviour per (container, key),
the Docker engine's behaviour for this run, the `KEY` query parameter, and
the fresh directory `tempfile.mkdtemp` returns for this request. -/
structure RunEnv where
  swiftInit : Bool
  dockerInit : Bool
  fetch : String → String → SwiftFetchResult
  dockerBeh : DockerRunResult
  keyParam : Option String
  tempDir : Path

/-- `run_function` (server.py lines 132-208): the 503 guard, then
`mkdtemp`, then a `try` of download and container run, with `except
ConnectionError`, `except Exception`, and a `finally` that removes the
temporary directory on every path the `try` block can take. -/
def run_function (env : RunEnv) : Response × List Event :=
  if !env.swiftInit || !env.dockerInit then
    (⟨.notFullyInitialized, 503⟩, [])
  else
    let container_name := DEFAULT_CONTAINER_NAME
    let object_key := pyStrOfOption env.keyParam
    let temp_dir := env.tempDir
    let local_code_path := temp_dir ++ ["script.py"]
    let tryResult : Response × List Event :=
      match download_code env.swiftInit env.fetch container_name object_key
          local_code_path with
      | .error (.connectionError m) => (⟨.connError m, 503⟩, [])
      | .error (.other m) =>
          (⟨.internalError ("An internal server error occurred: " ++ m), 500⟩, [])
      | .ok (false, evs) =>
          (⟨.downloadFailed container_name object_key, 500⟩, evs)
      | .ok (true, evs) =>
          match run_in_container env.dockerInit env.dockerBeh
              DEFAULT_DOCKER_IMAGE DEFAULT_CONTAINER_COMMAND temp_dir with
          | .error (.connectionError m) => (⟨.connError m, 503⟩, evs)
          | .error (.other m) =>
              (⟨.internalError ("An internal server error occurred: " ++ m), 500⟩, evs)
          | .ok (stdout, stderr, some err, evr) =>
              (⟨.execFailed (RunError.str err) stdout stderr, 500⟩, evs ++ evr)
          | .ok (stdout, stderr, none, evr) =>
              (⟨.execOk stdout stderr, 200⟩, evs ++ evr)
    (tryResult.1, .mkdtemp temp_dir :: tryResult.2 ++ [.rmtree temp_dir])

/-- Python `s.endswith(suffix)` (server.py line 227), as a suffix test on
the character lists. -/
def strEndsWith (s suffix : String) : Bool :=
  suffix.data.isSuffixOf s.data

/-- The key `upload_python_file` generates (server.py line 231):
`f"{uuid.uuid4().hex}_{file.filename}"`. -/
def generatedKey (uuidHex filename : String) : String :=
  uuidHex ++ "_" ++ filename

/-- Environment of one `/upload` request: the Swift handle state, the
`file` part of the multipart form (filename and content) if present, the
hex of the fresh UUID drawn for this request, and the store's behaviour for
the `put_object` call. -/
structure UploadEnv where
  swiftInit : Bool
  filePart : Option (String × String)
  uuidHex : String
  putResult : Except String Unit

/-- `upload_python_file` (server.py lines 209-262): 503 when Swift is
uninitialized, 400 for a missing file part, an empty filename, or a
filename not ending in `.py`; otherwise a service-generated key is built
and the bytes stored, answering 201 with the key and the container. -/
def upload_python_file (env : UploadEnv) : Response × List Event :=
  if !env.swiftInit then
    (⟨.swiftNotInitialized, 503⟩, [])
  else
    match env.filePart with
    | none => (⟨.noFilePart, 400⟩, [])
    | some (filename, _content) =>
      if filename = "" then
        (⟨.noSelectedFile, 400⟩, [])
      else if !strEndsWith filename ".py" then
        (⟨.onlyPyAllowed, 400⟩, [])
      else
        let object_key := generatedKey env.uuidHex filename
        match env.putResult with
        | .error m => (⟨.uploadFailed ("Failed to upload file: " ++ m), 500⟩, [])
        | .ok _ =>
            (⟨.uploaded object_key DEFAULT_CONTAINER_NAME, 201⟩,
             [.swiftPut DEFAULT_CONTAINER_NAME object_key])

/-- `list_objects` (server.py lines 263-274): 503 when Swift is
uninitialized, otherwise the container's object names or a 500 on any
exception from the store. -/
def list_objects (swiftInit : Bool) (getContainer : Except String (List String)) :
    Response :=
  if !swiftInit then
    ⟨.swiftNotInitialized, 503⟩
  else
    match getContainer with
    | .ok objs => ⟨.objectList objs, 200⟩
    | .error m => ⟨.listFailed ("Failed to list objects: " ++ m), 500⟩

/-- Environment of module startup: whether all four required Swift
environment variables are set, whether constructing the Swift connection
raises, and whether `docker.from_env()` / `ping()` raises. -/
structure StartupEnv where
  swiftVarsSet : Bool
  swiftConnectResult : Except String Unit
  dockerInitResult : Except String Unit

/-- Whether an `Except` is an error. -/
def isErr : Except String Unit → Bool
  | .error _ => true
  | .ok _ => false

/-- Module initialization (server.py lines 31-60): both handles start
`None`; the Swift connection is built only when all variables are set; the
Docker client is built next inside the same `try`; any exception in either
step runs the single `except` arm, which resets BOTH handles to `None`.
Returns `(swift_conn is set, docker_client is set)`. -/
def initClients (e : StartupEnv) : Bool × Bool :=
  match (if e.swiftVarsSet then e.swiftConnectResult else Except.ok ()) with
  | .error _ => (false, false)
  | .ok _ =>
      match e.dockerInitResult with
      | .error _ => (false, false)
      | .ok _ => (e.swiftVarsSet, true)

/-- Classification of a store fetch, forgetting the fetched bytes and
message text: used to say an artifact and store are "unchanged" between two
runs while their contents may be read again. -/
inductive SwiftClass
  | ok
  | clientErr (httpStatus : Nat)
  | exn
deriving DecidableEq, Repr

/-- Forget the data of a `SwiftFetchResult`, keeping its classification. -/
def SwiftFetchResult.classify : SwiftFetchResult → SwiftClass
  | .ok _ => .ok
  | .clientErr st _ => .clientErr st
  | .exn _ => .exn

/-- Classification of a container run, forgetting captured output and
message text. -/
inductive DockerClass
  | ok
  | containerError
  | imageNotFound
  | apiError
  | exn
deriving DecidableEq, Repr

/-- Forget the data of a `DockerRunResult`, keeping its classification. -/
def DockerRunResult.classify : DockerRunResult → DockerClass
  | .ok _ => .ok
  | .containerError _ _ _ => .containerError
  | .imageNotFound => .imageNotFound
  | .apiError _ => .apiError
  | .exn _ => .exn

/-- The outcome classification of a response: which kind of result the
caller received, independent of captured output and message text. -/
inductive Outcome
  | serviceUnavailable
  | downloadFailure
  | execFailure
  | completed
  | internalFailure
  | uploadRejected
  | uploadOk
  | uploadError
  | listOk
  | listError
deriving DecidableEq, Repr

/-- Classify a response by its body constructor. -/
def outcome (r : Response) : Outcome :=
  match r.body with
  | .notFullyInitialized => .serviceUnavailable
  | .downloadFailed _ _ => .downloadFailure
  | .execFailed _ _ _ => .execFailure
  | .execOk _ _ => .completed
  | .connError _ => .serviceUnavailable
  | .internalError _ => .internalFailure
  | .swiftNotInitialized => .serviceUnavailable
  | .noFilePart => .uploadRejected
  | .noSelectedFile => .uploadRejected
  | .onlyPyAllowed => .uploadRejected
  | .uploaded _ _ => .uploadOk
  | .uploadFailed _ => .uploadError
  | .objectList _ => .listOk
  | .listFailed _ => .listError

/-- The outcome of `/run` as a function of the client flags and of the
classifications of the store fetch and the container run alone: the summary
used to state that re-running an invocation is classification-stable. -/
def runOutcome (swiftInit dockerInit : Bool) (fc : SwiftClass) (dc : DockerClass) :
    Outcome :=
  if !swiftInit || !dockerInit then
    .serviceUnavailable
  else
    match fc with
    | .clientErr _ => .downloadFailure
    | .exn => .downloadFailure
    | .ok =>
        match dc with
        | .ok => .completed
        | _ => .execFailure

/-! ## Helper lemmas -/

/-- When either client handle is `None`, `/run` answers 503 immediately and
performs no effect at all. -/
lemma run_function_uninit (env : RunEnv)
    (h : env.swiftInit = false ∨ env.dockerInit = false) :
    run_function env = (⟨.notFullyInitialized, 503⟩, []) := by
  rcases h with h | h <;> simp [run_function, h]

/-- With both clients initialized, the `/run` event trace is one of exactly
two sequences: workspace creation, fetch attempt, cleanup (failed download),
or workspace creation, fetch attempt, artifact write, container run, cleanup. -/
lemma run_function_trace (env : RunEnv) (hs : env.swiftInit = true)
    (hd : env.dockerInit = true) :
    (run_function env).2 =
        [.mkdtemp env.tempDir,
         .swiftGet DEFAULT_CONTAINER_NAME (pyStrOfOption env.keyParam),
         .rmtree env.tempDir] ∨
    (run_function env).2 =
        [.mkdtemp env.tempDir,
         .swiftGet DEFAULT_CONTAINER_NAME (pyStrOfOption env.keyParam),
         .fileWrite (env.tempDir ++ ["script.py"]),
         .dockerRun DEFAULT_DOCKER_IMAGE DEFAULT_CONTAINER_COMMAND env.tempDir,
         .rmtree env.tempDir] := by
  rcases hf : env.fetch DEFAULT_CONTAINER_NAME (pyStrOfOption env.keyParam) with
      c | ⟨st, m⟩ | m <;>
    rcases hb : env.dockerBeh with out | ⟨so, se, msg⟩ | _ | m2 | m2 <;>
      simp [run_function, download_code, run_in_container, hs, hd, hf, hb]

/-! ## Claim theorems -/

/-- Claim C1: for every invocation for which a workspace directory is
created, that directory is removed by the time the handler returns, on every
exit path (download failure, sandbox failure, and either helper's
exceptions), not only the success path. -/
theorem c1_workspace_removed (env : RunEnv) (d : Path)
    (h : Event.mkdtemp d ∈ (run_function env).2) :
    Event.rmtree d ∈ (run_function env).2 := by
  by_cases hs : env.swiftInit = true
  · by_cases hd : env.dockerInit = true
    · rcases run_function_trace env hs hd with ht | ht <;> rw [ht] <;> rw [ht] at h <;>
        simp at h <;> simp [h]
    · rw [run_function_uninit env (Or.inr (by simpa using hd))] at h
      simp at h
  · rw [run_function_uninit env (Or.inl (by simpa using hs))] at h
    simp at h

/-- Claim C1 witness: a concrete run whose download fails still removes the
workspace it created. -/
theorem c1_workspace_removed_witness :
    Event.rmtree ["tmp", "faas_code_w1"] ∈
      (run_function ⟨true, true, fun _ _ => .clientErr 404 "not found",
        .ok "hi", some "k1", ["tmp", "faas_code_w1"]⟩).2 :=
  c1_workspace_removed
    ⟨true, true, fun _ _ => .clientErr 404 "not found",
      .ok "hi", some "k1", ["tmp", "faas_code_w1"]⟩
    ["tmp", "faas_code_w1"] (by decide)

/-- Claim C4: when the Swift handle or the Docker handle is uninitialized,
`/run` answers 503 (service unavailable) and allocates no workspace: its
event trace is empty. -/
theorem c4_uninit_no_workspace (env : RunEnv)
    (h : env.swiftInit = false ∨ env.dockerInit = false) :
    (run_function env).1 = ⟨.notFullyInitialized, 503⟩ ∧
      (run_function env).2 = [] := by
  rw [run_function_uninit env h]
  exact ⟨rfl, rfl⟩

/-- Claim C4 witness: a concrete request with the Docker handle missing gets
503 and no workspace. -/
theorem c4_uninit_no_workspace_witness :
    (run_function ⟨true, false, fun _ _ => .ok "code", .ok "out",
        some "k4", ["tmp", "faas_code_w4"]⟩).1 = ⟨.notFullyInitialized, 503⟩ ∧
      (run_function ⟨true, false, fun _ _ => .ok "code", .ok "out",
        some "k4", ["tmp", "faas_code_w4"]⟩).2 = [] :=
  c4_uninit_no_workspace
    ⟨true, false, fun _ _ => .ok "code", .ok "out",
      some "k4", ["tmp", "faas_code_w4"]⟩ (Or.inr rfl)

/-- Claim C5: within one initialized invocation the stages run strictly in
order — the trace is either allocate, fetch attempt, cleanup, or allocate,
fetch attempt, artifact write, container run, cleanup; in particular the
fetch completes before any container run is attempted, and the workspace
removal is the last event on both paths. -/
theorem c5_stage_order (env : RunEnv) (hs : env.swiftInit = true)
    (hd : env.dockerInit = true) :
    ((run_function env).2 =
        [.mkdtemp env.tempDir,
         .swiftGet DEFAULT_CONTAINER_NAME (pyStrOfOption env.keyParam),
         .rmtree env.tempDir] ∨
      (run_function env).2 =
        [.mkdtemp env.tempDir,
         .swiftGet DEFAULT_CONTAINER_NAME (pyStrOfOption env.keyParam),
         .fileWrite (env.tempDir ++ ["script.py"]),
         .dockerRun DEFAULT_DOCKER_IMAGE DEFAULT_CONTAINER_COMMAND env.tempDir,
         .rmtree env.tempDir]) ∧
    (run_function env).2.getLast? = some (.rmtree env.tempDir) := by
  refine ⟨run_function_trace env hs hd, ?_⟩
  rcases run_function_trace env hs hd with ht | ht <;> rw [ht] <;> rfl

/-- Claim C5 witness: stage order on a concrete successful run. -/
theorem c5_stage_order_witness :
    ((run_function ⟨true, true, fun _ _ => .ok "print(1)", .ok "1",
        some "k5", ["tmp", "faas_code_w5"]⟩).2 =
        [.mkdtemp ["tmp", "faas_code_w5"],
         .swiftGet DEFAULT_CONTAINER_NAME (pyStrOfOption (some "k5")),
         .rmtree ["tmp", "faas_code_w5"]] ∨
      (run_function ⟨true, true, fun _ _ => .ok "print(1)", .ok "1",
        some "k5", ["tmp", "faas_code_w5"]⟩).2 =
        [.mkdtemp ["tmp", "faas_code_w5"],
         .swiftGet DEFAULT_CONTAINER_NAME (pyStrOfOption (some "k5")),
         .fileWrite (["tmp", "faas_code_w5"] ++ ["script.py"]),
         .dockerRun DEFAULT_DOCKER_IMAGE DEFAULT_CONTAINER_COMMAND
           ["tmp", "faas_code_w5"],
         .rmtree ["tmp", "faas_code_w5"]]) ∧
    (run_function ⟨true, true, fun _ _ => .ok "print(1)", .ok "1",
        some "k5", ["tmp", "faas_code_w5"]⟩).2.getLast? =
      some (.rmtree ["tmp", "faas_code_w5"]) :=
  c5_stage_order
    ⟨true, true, fun _ _ => .ok "print(1)", .ok "1",
      some "k5", ["tmp", "faas_code_w5"]⟩ rfl rfl

/-- Claim C2 counterexample: at a concrete missing key, the `/run` response
is byte-identical to the response produced by a transient store error
(connectivity failure), and is the generic download-failure body — so the
trigger does not return a NotFound-specific classification distinguished
from TransientStoreError. -/
theorem c2_notfound_counterexample :
    (run_function ⟨true, true, fun _ _ => .clientErr 404 "Object GET failed",
        .ok "", some "missing-key", ["tmp", "faas_code_w2"]⟩).1 =
      (run_function ⟨true, true, fun _ _ => .exn "connection timed out",
        .ok "", some "missing-key", ["tmp", "faas_code_w2"]⟩).1 ∧
    (run_function ⟨true, true, fun _ _ => .clientErr 404 "Object GET failed",
        .ok "", some "missing-key", ["tmp", "faas_code_w2"]⟩).1 =
      ⟨.downloadFailed "faas-code" "missing-key", 500⟩ :=
  ⟨rfl, rfl⟩

/-- Claim C2 (amended): an invocation whose key does not exist in the store
(the fetch raises a 404 ClientException) gets the generic download-failure
response (HTTP 500, "Failed to download code from swift://…"), which is
identical to the transient-error response rather than a distinct NotFound
classification; the sandbox run stage is never reached. -/
theorem c2_missing_key (env : RunEnv) (hs : env.swiftInit = true)
    (hd : env.dockerInit = true) (m : String)
    (hmiss : env.fetch DEFAULT_CONTAINER_NAME (pyStrOfOption env.keyParam) =
      .clientErr 404 m) :
    (run_function env).1 =
        ⟨.downloadFailed DEFAULT_CONTAINER_NAME (pyStrOfOption env.keyParam), 500⟩ ∧
      ∀ i c d, Event.dockerRun i c d ∉ (run_function env).2 := by
  constructor
  · simp [run_function, download_code, hs, hd, hmiss]
  · intro i c d
    simp [run_function, download_code, hs, hd, hmiss]

/-- Claim C2 witness: the amended statement at a concrete missing key. -/
theorem c2_missing_key_witness :
    (run_function ⟨true, true, fun _ _ => .clientErr 404 "Object GET failed",
        .ok "", some "absent", ["tmp", "faas_code_w2b"]⟩).1 =
        ⟨.downloadFailed DEFAULT_CONTAINER_NAME (pyStrOfOption (some "absent")), 500⟩ ∧
      ∀ i c d, Event.dockerRun i c d ∉
        (run_function ⟨true, true, fun _ _ => .clientErr 404 "Object GET failed",
          .ok "", some "absent", ["tmp", "faas_code_w2b"]⟩).2 :=
  c2_missing_key
    ⟨true, true, fun _ _ => .clientErr 404 "Object GET failed",
      .ok "", some "absent", ["tmp", "faas_code_w2b"]⟩
    rfl rfl "Object GET failed" rfl

/-- Claim C3 counterexample: a container run that exits non-zero having
captured stdout `"partial output"` and captured stderr `""` (empty bytes
are falsy in Python) produces a failure response whose stderr field is
`str(e)`, not the captured empty stderr — the response does not carry the
stdout/stderr captured before failure. -/
theorem c3_output_counterexample :
    (run_function ⟨true, true, fun _ _ => .ok "code",
        .containerError (some "partial output") (some "")
          "Command exited with non-zero status 1",
        some "k3", ["tmp", "faas_code_w3"]⟩).1 =
      ⟨.execFailed "Command exited with non-zero status 1" "partial output"
        "Command exited with non-zero status 1", 500⟩ ∧
    "Command exited with non-zero status 1" ≠ "" :=
  ⟨rfl, by decide⟩

/-- Claim C3 (amended): with the artifact staged, a container run that exits
non-zero yields a 500 execution-failure response carrying the captured
stdout (empty when none was captured) and the captured stderr when it is
non-empty — when the captured stderr is empty or absent, `str(e)` is
substituted for it; a run that exits zero yields a 200 success response
carrying the captured output with empty stderr. -/
theorem c3_outcome_by_exit (env : RunEnv) (hs : env.swiftInit = true)
    (hd : env.dockerInit = true) (c : String)
    (hok : env.fetch DEFAULT_CONTAINER_NAME (pyStrOfOption env.keyParam) = .ok c) :
    (∀ so se msg, env.dockerBeh = .containerError so se msg →
        (run_function env).1 =
          ⟨.execFailed msg (optBytes so "") (optBytes se msg), 500⟩) ∧
      ∀ out, env.dockerBeh = .ok out →
        (run_function env).1 = ⟨.execOk out "", 200⟩ := by
  constructor
  · intro so se msg hb
    simp [run_function, download_code, run_in_container, RunError.str,
      hs, hd, hok, hb]
  · intro out hb
    simp [run_function, download_code, run_in_container, hs, hd, hok, hb]

/-- Claim C3 witness: the amended statement at a concrete environment whose
container run exits non-zero with non-empty captured stderr. -/
theorem c3_outcome_by_exit_witness :
    (∀ so se msg,
        (.containerError (some "out before crash") (some "Traceback")
            "Command exited with non-zero status 1" : DockerRunResult) =
          .containerError so se msg →
        (run_function ⟨true, true, fun _ _ => .ok "code",
            .containerError (some "out before crash") (some "Traceback")
              "Command exited with non-zero status 1",
            some "k3b", ["tmp", "faas_code_w3b"]⟩).1 =
          ⟨.execFailed msg (optBytes so "") (optBytes se msg), 500⟩) ∧
      ∀ out,
        (.containerError (some "out before crash") (some "Traceback")
            "Command exited with non-zero status 1" : DockerRunResult) = .ok out →
        (run_function ⟨true, true, fun _ _ => .ok "code",
            .containerError (some "out before crash") (some "Traceback")
              "Command exited with non-zero status 1",
            some "k3b", ["tmp", "faas_code_w3b"]⟩).1 = ⟨.execOk out "", 200⟩ :=
  c3_outcome_by_exit
    ⟨true, true, fun _ _ => .ok "code",
      .containerError (some "out before crash") (some "Traceback")
        "Command exited with non-zero status 1",
      some "k3b", ["tmp", "faas_code_w3b"]⟩
    rfl rfl "code" rfl

/-- Claim C10: an invocation with no `KEY` query parameter is not rejected
by validation: the missing value is stringified to the literal key
`"None"`, a workspace is allocated, a fetch of the object named `"None"` is
attempted, and (when the store has no such object) the caller gets the
download-failure response, not a request-validation error. -/
theorem c10_missing_key_param (env : RunEnv) (hs : env.swiftInit = true)
    (hd : env.dockerInit = true) (hk : env.keyParam = none)
    (hnf : ∀ c, env.fetch DEFAULT_CONTAINER_NAME "None" ≠ .ok c) :
    Event.mkdtemp env.tempDir ∈ (run_function env).2 ∧
      Event.swiftGet DEFAULT_CONTAINER_NAME "None" ∈ (run_function env).2 ∧
      (run_function env).1 = ⟨.downloadFailed DEFAULT_CONTAINER_NAME "None", 500⟩ := by
  have hkey : pyStrOfOption env.keyParam = "None" := by rw [hk]; rfl
  rcases hf : env.fetch DEFAULT_CONTAINER_NAME "None" with c | ⟨st, m⟩ | m
  · exact absurd hf (hnf c)
  · refine ⟨?_, ?_, ?_⟩ <;>
      simp [run_function, download_code, hs, hd, hkey, hf]
  · refine ⟨?_, ?_, ?_⟩ <;>
      simp [run_function, download_code, hs, hd, hkey, hf]

/-- Claim C10 witness: a concrete request with no `KEY` parameter against a
store with no object named `"None"`. -/
theorem c10_missing_key_param_witness :
    Event.mkdtemp ["tmp", "faas_code_w10"] ∈
        (run_function ⟨true, true, fun _ _ => .clientErr 404 "not found",
          .ok "", none, ["tmp", "faas_code_w10"]⟩).2 ∧
      Event.swiftGet DEFAULT_CONTAINER_NAME "None" ∈
        (run_function ⟨true, true, fun _ _ => .clientErr 404 "not found",
          .ok "", none, ["tmp", "faas_code_w10"]⟩).2 ∧
      (run_function ⟨true, true, fun _ _ => .clientErr 404 "not found",
          .ok "", none, ["tmp", "faas_code_w10"]⟩).1 =
        ⟨.downloadFailed DEFAULT_CONTAINER_NAME "None", 500⟩ :=
  c10_missing_key_param
    ⟨true, true, fun _ _ => .clientErr 404 "not found",
      .ok "", none, ["tmp", "faas_code_w10"]⟩
    rfl rfl rfl (fun c h => by simp at h)

/-- The `/run` outcome classification depends only on the client flags and
the classifications of the fetch and of the container run — not on the
workspace path, the fetched bytes, or the captured output. -/
lemma outcome_run_function (env : RunEnv) :
    outcome (run_function env).1 =
      runOutcome env.swiftInit env.dockerInit
        ((env.fetch DEFAULT_CONTAINER_NAME (pyStrOfOption env.keyParam)).classify)
        env.dockerBeh.classify := by
  by_cases hs : env.swiftInit = true
  · by_cases hd : env.dockerInit = true
    · rcases hf : env.fetch DEFAULT_CONTAINER_NAME (pyStrOfOption env.keyParam) with
          c | ⟨st, m⟩ | m <;>
        rcases hb : env.dockerBeh with out | ⟨so, se, msg⟩ | _ | m2 | m2 <;>
          simp [run_function, download_code, run_in_container, runOutcome, outcome,
            SwiftFetchResult.classify, DockerRunResult.classify, hs, hd, hf, hb]
    · have hd' : env.dockerInit = false := by simpa using hd
      rw [run_function_uninit env (Or.inr hd')]
      simp [outcome, runOutcome, hd']
  · have hs' : env.swiftInit = false := by simpa using hs
    rw [run_function_uninit env (Or.inl hs')]
    simp [outcome, runOutcome, hs']

/-- Claim C6: an upload whose filename does not end in `.py` is rejected
with a 400 invalid-artifact response and nothing is stored; every accepted
(201) upload answers with the service-generated key `uuid4().hex + "_" +
filename` together with the target container; and the generated keys of two
requests that drew distinct (equal-length) UUID hexes never collide. -/
theorem c6_upload_contract (env : UploadEnv) (filename content : String)
    (hf : env.filePart = some (filename, content)) (hs : env.swiftInit = true) :
    (strEndsWith filename ".py" = false →
        (upload_python_file env).1.status = 400 ∧
          ((upload_python_file env).1.body = .noSelectedFile ∨
            (upload_python_file env).1.body = .onlyPyAllowed) ∧
          (upload_python_file env).2 = []) ∧
      ((upload_python_file env).1.status = 201 →
        (upload_python_file env).1 =
          ⟨.uploaded (generatedKey env.uuidHex filename) DEFAULT_CONTAINER_NAME,
            201⟩) ∧
      ∀ u1 u2 f1 f2 : String, u1.length = u2.length → u1 ≠ u2 →
        generatedKey u1 f1 ≠ generatedKey u2 f2 := by
  refine ⟨?_, ?_, ?_⟩
  · intro hpy
    by_cases he : filename = ""
    · simp [upload_python_file, hf, hs, he]
    · simp [upload_python_file, hf, hs, he, hpy]
  · intro h201
    by_cases he : filename = ""
    · simp [upload_python_file, hf, hs, he] at h201
    · by_cases hpy : strEndsWith filename ".py" = true
      · rcases hp : env.putResult with m | u
        · simp [upload_python_file, hf, hs, he, hpy, hp] at h201
        · simp [upload_python_file, hf, hs, he, hpy, hp]
      · simp [upload_python_file, hf, hs, he, hpy] at h201
  · intro u1 u2 f1 f2 hlen hne h
    apply hne
    have hd : (generatedKey u1 f1).data = (generatedKey u2 f2).data :=
      congrArg String.data h
    simp only [generatedKey, String.data_append, List.append_assoc] at hd
    have hlen' : u1.data.length = u2.data.length := hlen
    exact String.ext (List.append_inj hd hlen').1

/-- Claim C6 witness: a concrete rejected non-`.py` upload, a concrete
accepted upload, and a concrete non-collision of generated keys. -/
theorem c6_upload_contract_witness :
    ((upload_python_file ⟨true, some ("notes.txt", "data"), "aaaa1111", .ok ()⟩).1.status
          = 400 ∧
        ((upload_python_file
            ⟨true, some ("notes.txt", "data"), "aaaa1111", .ok ()⟩).1.body =
            .noSelectedFile ∨
          (upload_python_file
            ⟨true, some ("notes.txt", "data"), "aaaa1111", .ok ()⟩).1.body =
            .onlyPyAllowed) ∧
        (upload_python_file ⟨true, some ("notes.txt", "data"), "aaaa1111", .ok ()⟩).2
          = []) ∧
      (upload_python_file ⟨true, some ("hello.py", "print(1)"), "bbbb2222", .ok ()⟩).1 =
        ⟨.uploaded (generatedKey "bbbb2222" "hello.py") DEFAULT_CONTAINER_NAME, 201⟩ ∧
      generatedKey "aaaa1111" "hello.py" ≠ generatedKey "bbbb2222" "hello.py" :=
  ⟨(c6_upload_contract ⟨true, some ("notes.txt", "data"), "aaaa1111", .ok ()⟩
      "notes.txt" "data" rfl rfl).1 (by decide),
    (c6_upload_contract ⟨true, some ("hello.py", "print(1)"), "bbbb2222", .ok ()⟩
      "hello.py" "print(1)" rfl rfl).2.1 (by decide),
    (c6_upload_contract ⟨true, some ("hello.py", "print(1)"), "bbbb2222", .ok ()⟩
      "hello.py" "print(1)" rfl rfl).2.2 "aaaa1111" "bbbb2222" "hello.py" "hello.py"
      rfl (by decide)⟩

/-- Claim C7: two invocations whose workspaces are distinct fresh entries of
the same temporary parent directory (the `mkdtemp` guarantee) have
non-overlapping workspace roots, and every file the first invocation writes
lies inside its own root and never inside the other invocation's root. -/
theorem c7_workspace_isolation (env1 env2 : RunEnv) (p : Path) (a b : String)
    (h1 : env1.tempDir = p ++ [a]) (h2 : env2.tempDir = p ++ [b]) (hab : a ≠ b) :
    env1.tempDir ≠ env2.tempDir ∧
      ∀ q, Event.fileWrite q ∈ (run_function env1).2 →
        (∃ rest, q = env1.tempDir ++ rest) ∧ ¬∃ rest, q = env2.tempDir ++ rest := by
  constructor
  · rw [h1, h2]
    intro h
    have := List.append_cancel_left h
    simp at this
    exact hab this
  · intro q hq
    by_cases hs : env1.swiftInit = true
    · by_cases hd : env1.dockerInit = true
      · rcases run_function_trace env1 hs hd with ht | ht <;> rw [ht] at hq <;>
          simp at hq
        refine ⟨⟨["script.py"], hq⟩, ?_⟩
        rintro ⟨rest, hr⟩
        rw [hq, h1, h2, List.append_assoc, List.append_assoc] at hr
        have := List.append_cancel_left hr
        simp at this
        exact hab this.1
      · rw [run_function_uninit env1 (Or.inr (by simpa using hd))] at hq
        simp at hq
    · rw [run_function_uninit env1 (Or.inl (by simpa using hs))] at hq
      simp at hq

/-- Claim C7 witness: two concrete invocations staged in distinct sibling
workspaces under `/tmp`; the first invocation's artifact write lands inside
its own root and not inside the second's. -/
theorem c7_workspace_isolation_witness :
    (run_function ⟨true, true, fun _ _ => .ok "print(1)", .ok "1",
        some "k7a", ["tmp", "faas_code_w7a"]⟩ :
        Response × List Event).1.status = 200 ∧
      (⟨true, true, fun _ _ => .ok "print(1)", .ok "1",
          some "k7a", ["tmp", "faas_code_w7a"]⟩ : RunEnv).tempDir ≠
        (⟨true, true, fun _ _ => .ok "print(2)", .ok "2",
          some "k7b", ["tmp", "faas_code_w7b"]⟩ : RunEnv).tempDir ∧
      (∃ rest, ["tmp", "faas_code_w7a", "script.py"] =
          (⟨true, true, fun _ _ => .ok "print(1)", .ok "1",
            some "k7a", ["tmp", "faas_code_w7a"]⟩ : RunEnv).tempDir ++ rest) ∧
      ¬∃ rest, ["tmp", "faas_code_w7a", "script.py"] =
          (⟨true, true, fun _ _ => .ok "print(2)", .ok "2",
            some "k7b", ["tmp", "faas_code_w7b"]⟩ : RunEnv).tempDir ++ rest :=
  ⟨by decide,
    (c7_workspace_isolation
      ⟨true, true, fun _ _ => .ok "print(1)", .ok "1",
        some "k7a", ["tmp", "faas_code_w7a"]⟩
      ⟨true, true, fun _ _ => .ok "print(2)", .ok "2",
        some "k7b", ["tmp", "faas_code_w7b"]⟩
      ["tmp"] "faas_code_w7a" "faas_code_w7b" rfl rfl (by decide)).1,
    (c7_workspace_isolation
      ⟨true, true, fun _ _ => .ok "print(1)", .ok "1",
        some "k7a", ["tmp", "faas_code_w7a"]⟩
      ⟨true, true, fun _ _ => .ok "print(2)", .ok "2",
        some "k7b", ["tmp", "faas_code_w7b"]⟩
      ["tmp"] "faas_code_w7a" "faas_code_w7b" rfl rfl (by decide)).2
      ["tmp", "faas_code_w7a", "script.py"] (by decide)⟩

/-- Claim C8: two runs of the identical invocation request (same clients,
same `KEY`, fixed image and command) against an unchanged store and an
unchanged artifact — same fetch classification, same container-run
classification, while workspace paths, fetched bytes, and captured output
may all differ — receive responses with the same outcome classification. -/
theorem c8_rerun_same_outcome (e1 e2 : RunEnv)
    (hs : e1.swiftInit = e2.swiftInit) (hd : e1.dockerInit = e2.dockerInit)
    (_hk : e1.keyParam = e2.keyParam)
    (hf : (e1.fetch DEFAULT_CONTAINER_NAME (pyStrOfOption e1.keyParam)).classify =
      (e2.fetch DEFAULT_CONTAINER_NAME (pyStrOfOption e2.keyParam)).classify)
    (hb : e1.dockerBeh.classify = e2.dockerBeh.classify) :
    outcome (run_function e1).1 = outcome (run_function e2).1 := by
  rw [outcome_run_function, outcome_run_function, hs, hd, hf, hb]

/-- Claim C8 witness: two concrete re-runs with different workspaces,
different fetched bytes, and different captured output, but the same
classifications, get the same outcome. -/
theorem c8_rerun_same_outcome_witness :
    outcome (run_function ⟨true, true, fun _ _ => .ok "print(1)",
        .containerError (some "a") (some "b") "exit 1",
        some "k8", ["tmp", "faas_code_w8a"]⟩).1 =
      outcome (run_function ⟨true, true, fun _ _ => .ok "print(1) # redeployed",
        .containerError none (some "c") "exit 2",
        some "k8", ["tmp", "faas_code_w8b"]⟩).1 :=
  c8_rerun_same_outcome
    ⟨true, true, fun _ _ => .ok "print(1)",
      .containerError (some "a") (some "b") "exit 1",
      some "k8", ["tmp", "faas_code_w8a"]⟩
    ⟨true, true, fun _ _ => .ok "print(1) # redeployed",
      .containerError none (some "c") "exit 2",
      some "k8", ["tmp", "faas_code_w8b"]⟩
    rfl rfl rfl rfl rfl

/-- Claim C9: the two client handles are not initialized independently — any
exception during startup (Swift connection failing, or Docker failing after
Swift succeeded) leaves BOTH handles `None`, so the upload and listing
triggers, which need only the store, and the run trigger all answer 503. -/
theorem c9_joint_init_failure (e : StartupEnv)
    (h : (e.swiftVarsSet = true ∧ isErr e.swiftConnectResult = true) ∨
      isErr e.dockerInitResult = true) :
    initClients e = (false, false) ∧
      (∀ uenv : UploadEnv, uenv.swiftInit = (initClients e).1 →
        (upload_python_file uenv).1 = ⟨.swiftNotInitialized, 503⟩ ∧
          (upload_python_file uenv).2 = []) ∧
      (∀ g, list_objects (initClients e).1 g = ⟨.swiftNotInitialized, 503⟩) ∧
      ∀ renv : RunEnv, renv.swiftInit = (initClients e).1 →
        (run_function renv).1 = ⟨.notFullyInitialized, 503⟩ := by
  have hinit : initClients e = (false, false) := by
    rcases h with ⟨hv, hc⟩ | hdk
    · rcases hcr : e.swiftConnectResult with m | u
      · simp [initClients, hv, hcr]
      · rw [hcr] at hc
        simp [isErr] at hc
    · rcases hdr : e.dockerInitResult with m | u
      · rcases hcc : (if e.swiftVarsSet then e.swiftConnectResult else Except.ok ())
            with m2 | u2 <;>
          simp [initClients, hcc, hdr]
      · rw [hdr] at hdk
        simp [isErr] at hdk
  have h1 : (initClients e).1 = false := by rw [hinit]
  refine ⟨hinit, ?_, ?_, ?_⟩
  · intro uenv hu
    rw [h1] at hu
    exact ⟨by simp [upload_python_file, hu], by simp [upload_python_file, hu]⟩
  · intro g
    rw [h1]
    simp [list_objects]
  · intro renv hr
    rw [h1] at hr
    simp [run_function, hr]

/-- Claim C9 witness: Docker failing after a successful Swift connection at
startup leaves both handles unset, and concrete upload, listing, and run
requests against the resulting state all get 503. -/
theorem c9_joint_init_failure_witness :
    initClients ⟨true, .ok (), .error "docker daemon unreachable"⟩ = (false, false) ∧
      ((upload_python_file ⟨false, some ("a.py", "x"), "cccc3333", .ok ()⟩).1 =
          ⟨.swiftNotInitialized, 503⟩ ∧
        (upload_python_file ⟨false, some ("a.py", "x"), "cccc3333", .ok ()⟩).2 = []) ∧
      list_objects (initClients ⟨true, .ok (), .error "docker daemon unreachable"⟩).1
          (.ok ["a.py"]) = ⟨.swiftNotInitialized, 503⟩ ∧
      (run_function ⟨false, false, fun _ _ => .ok "", .ok "",
          some "k9", ["tmp", "faas_code_w9"]⟩).1 = ⟨.notFullyInitialized, 503⟩ :=
  ⟨(c9_joint_init_failure ⟨true, .ok (), .error "docker daemon unreachable"⟩
      (Or.inr rfl)).1,
    (c9_joint_init_failure ⟨true, .ok (), .error "docker daemon unreachable"⟩
      (Or.inr rfl)).2.1 ⟨false, some ("a.py", "x"), "cccc3333", .ok ()⟩ rfl,
    (c9_joint_init_failure ⟨true, .ok (), .error "docker daemon unreachable"⟩
      (Or.inr rfl)).2.2.1 (.ok ["a.py"]),
    (c9_joint_init_failure ⟨true, .ok (), .error "docker daemon unreachable"⟩
      (Or.inr rfl)).2.2.2 ⟨false, false, fun _ _ => .ok "", .ok "",
        some "k9", ["tmp", "faas_code_w9"]⟩ rfl⟩

end Server
